import Mathlib

/-!
Shallow embedding of the forecast-aggregation pipeline of
`src/api/views.py`: city geocoding with candidate fallback
(`_geocode_city`), the read-through geocode cache, the 3-hourly-to-daily
forecast aggregation inside `weather_summary`, and the view's error
mapping.

Modelling conventions:
* Python numbers (floats) are embedded as `ℚ`; `round(x, 1)` is embedded
  as round-half-to-even on tenths (`round1`), which agrees with Python's
  `round` on all exactly-representable inputs.
* JSON objects are flattened into structures with `Option` fields: a
  `none` field stands for a key that is absent (or JSON `null`).
* Python strings from the resolver are embedded as `List Char`
  restricted to ASCII (`lowerStr` is ASCII lower-casing, `stripStr`
  strips ASCII whitespace), matching the repertoire the code handles.
* `datetime.utcfromtimestamp(ts).strftime return of "%Y-%m-%d"` is
  embedded as the day number `ts / 86400`: on the range `utcfromtimestamp`
  accepts, the date string is a strictly monotone function of the day
  number, so sorting the day numbers coincides with Python's
  lexicographic sort of the `YYYY-MM-DD` strings.
* The `requests` session and the Django cache are passed explicitly: the
  geocoding provider is an oracle `PyStr → GeoOutcome`, the cache an
  association list of unexpired entries, and each outbound provider call
  increments `GeoState.calls`.
-/

/-- One record of the 3-hour forecast list (`fc["list"][i]`), flattened:
`temp_min`/`temp_max` come from the item's `main` object, `windSpeed`
from its `wind` object, `rain3h` from the `"3h"` key of its `rain`
object, so an absent inner object makes its fields `none`. -/
structure RawSample where
  dt : Option Nat
  temp_min : Option ℚ
  temp_max : Option ℚ
  pop : Option ℚ
  rain3h : Option ℚ
  windSpeed : Option ℚ
deriving DecidableEq, Repr

/-- One output row of the `daily` array built by `weather_summary`. -/
structure DailyRow where
  date : Nat
  temp_min : Option ℚ
  temp_max : Option ℚ
  pop : Option ℚ
  rain_mm : ℚ
  wind_speed : Option ℚ
deriving DecidableEq, Repr

/-- `datetime.utcfromtimestamp(ts).strftime("%Y-%m-%d")`, as the number
of whole days since the Unix epoch. -/
def dateKey (ts : Nat) : Nat := ts / 86400

/-- The date bucket a sample lands in: `none` when the loop `continue`s,
i.e. when `item.get("dt")` is absent or falsy (`if not ts: continue`,
which also skips a timestamp equal to `0`). -/
def sampleKey (s : RawSample) : Option Nat :=
  match s.dt with
  | none => none
  | some ts => if ts = 0 then none else some (dateKey ts)

/-- The ordered sub-list of samples accumulated into `buckets[day]`. -/
def bucketOf (samples : List RawSample) (day : Nat) : List RawSample :=
  samples.filter (fun s => decide (sampleKey s = some day))

/-- Python's `round(x, 1)` at integer scale: round to the nearest
integer, ties to the even integer (banker's rounding). -/
def roundHalfEven (q : ℚ) : ℤ :=
  if q - ⌊q⌋ < 1/2 then ⌊q⌋
  else if 1/2 < q - ⌊q⌋ then ⌊q⌋ + 1
  else if ⌊q⌋ % 2 = 0 then ⌊q⌋ else ⌊q⌋ + 1

/-- Python's `round(x, 1)`. -/
def round1 (q : ℚ) : ℚ := (roundHalfEven (q * 10) : ℚ) / 10

/-- Python's `min` over a list, left fold shape; the `[]` case is never
used by the code (guarded by `if temps_min`). -/
def listMin : List ℚ → ℚ
  | [] => 0
  | [x] => x
  | x :: y :: xs => min x (listMin (y :: xs))

/-- Python's `max` over a list, left fold shape; the `[]` case is never
used by the code (guarded by truthiness checks). -/
def listMax : List ℚ → ℚ
  | [] => 0
  | [x] => x
  | x :: y :: xs => max x (listMax (y :: xs))

/-- The reduction of one day's bucket into a `daily` row
(`views.py` lines 191-206): min/max of the non-null temperatures, max of
the pop percentages, sum of the rain volumes, mean of the non-null wind
speeds, each rounded to one decimal, with the code's null/0 defaults for
empty lists.  `pop` values are accumulated as `(item.get("pop", 0) or 0)
* 100.0` and rain as `(item.get("rain", {}) or {}).get("3h", 0) or 0`,
so absent pop/rain contribute `0`. -/
def rowFor (samples : List RawSample) (day : Nat) : DailyRow :=
  let b := bucketOf samples day
  let temps_min := b.filterMap (·.temp_min)
  let temps_max := b.filterMap (·.temp_max)
  let winds := b.filterMap (·.windSpeed)
  let pops := b.map (fun s => (s.pop.getD 0) * 100)
  let rains := b.map (fun s => s.rain3h.getD 0)
  { date := day
    temp_min := if temps_min = [] then none else some (round1 (listMin temps_min))
    temp_max := if temps_max = [] then none else some (round1 (listMax temps_max))
    pop := if pops = [] then none else some (round1 (listMax pops))
    rain_mm := if rains = [] then 0 else round1 rains.sum
    wind_speed :=
      if winds = [] then none
      else some (round1 (winds.sum / ((max 1 winds.length : ℕ) : ℚ))) }

/-- `sorted(buckets.keys())[:5]`: the distinct date keys of the
timestamped samples, ascending, first five. -/
def dayKeys (samples : List RawSample) : List Nat :=
  (((samples.filterMap sampleKey).dedup).insertionSort (· ≤ ·)).take 5

/-- The daily aggregation loop of `weather_summary` (lines 169-206) as a
pure function from the forecast list to the `daily` rows. -/
def aggregate (samples : List RawSample) : List DailyRow :=
  (dayKeys samples).map (rowFor samples)

/-- The three synthetic same-day samples of the aggregation test:
3-hour timestamps on day 20000 (2024-10-04 UTC). -/
def sampleT1 : RawSample := ⟨some 1728000000, some 20, some 28, some (1/10), some 0, some 3⟩

/-- Second synthetic sample, same UTC date. -/
def sampleT2 : RawSample := ⟨some 1728010800, some 18, some 30, some (1/2), some (5/2), some 5⟩

/-- Third synthetic sample, same UTC date. -/
def sampleT3 : RawSample := ⟨some 1728021600, some 22, some 26, some (3/10), some 1, some 4⟩

theorem dayKeys_sampleT : dayKeys [sampleT1, sampleT2, sampleT3] = [20000] := by decide

theorem bucketOf_sampleT :
    bucketOf [sampleT1, sampleT2, sampleT3] 20000 = [sampleT1, sampleT2, sampleT3] := by
  simp only [bucketOf, List.filter]
  norm_num [sampleKey, dateKey, sampleT1, sampleT2, sampleT3]

theorem rowFor_sampleT : rowFor [sampleT1, sampleT2, sampleT3] 20000 =
    ⟨20000, some 18, some 30, some 50, 7/2, some 4⟩ := by
  rw [rowFor, bucketOf_sampleT]
  simp only [List.filterMap, List.map, sampleT1, sampleT2, sampleT3]
  norm_num [listMin, listMax, round1, roundHalfEven, List.sum]
  simp

/-- Claim C2: for three forecast samples on the same UTC date with
`temp_min = [20, 18, 22]`, `temp_max = [28, 30, 26]`,
`pop = [0.1, 0.5, 0.3]`, `rain_3h_mm = [0, 2.5, 1.0]`,
`wind = [3, 5, 4]`, the aggregator produces exactly one daily row with
`temp_min = 18.0`, `temp_max = 30.0`, `pop = 50.0`, `rain_mm = 3.5`,
`wind_speed = 4.0` (min/max over temps, max pop as a percentage, summed
rain, mean wind, each rounded to one decimal place). -/
theorem aggregate_reduction_sampleT : aggregate [sampleT1, sampleT2, sampleT3] =
    [⟨20000, some 18, some 30, some 50, 7/2, some 4⟩] := by
  rw [aggregate, dayKeys_sampleT, List.map, rowFor_sampleT]
  simp

theorem perm_nil_iff {α : Type*} {l₁ l₂ : List α} (h : l₁.Perm l₂) : l₁ = [] ↔ l₂ = [] := by
  rw [← List.length_eq_zero, ← List.length_eq_zero, h.length_eq]

theorem listMin_mem : ∀ (x : ℚ) (xs : List ℚ), listMin (x :: xs) ∈ x :: xs := by
  intro x xs
  induction xs generalizing x with
  | nil => simp [listMin]
  | cons y ys ih =>
    rw [listMin]
    rcases min_choice x (listMin (y :: ys)) with h | h <;> rw [h]
    · exact List.mem_cons_self _ _
    · exact List.mem_cons_of_mem _ (ih y)

theorem listMin_le : ∀ (x : ℚ) (xs : List ℚ) (a : ℚ), a ∈ x :: xs → listMin (x :: xs) ≤ a := by
  intro x xs
  induction xs generalizing x with
  | nil =>
    intro a ha
    rw [List.mem_singleton] at ha
    simp [listMin, ha]
  | cons y ys ih =>
    intro a ha
    rw [listMin]
    rcases List.mem_cons.mp ha with rfl | ha'
    · exact min_le_left _ _
    · exact le_trans (min_le_right _ _) (ih y a ha')

theorem listMax_mem : ∀ (x : ℚ) (xs : List ℚ), listMax (x :: xs) ∈ x :: xs := by
  intro x xs
  induction xs generalizing x with
  | nil => simp [listMax]
  | cons y ys ih =>
    rw [listMax]
    rcases max_choice x (listMax (y :: ys)) with h | h <;> rw [h]
    · exact List.mem_cons_self _ _
    · exact List.mem_cons_of_mem _ (ih y)

theorem le_listMax : ∀ (x : ℚ) (xs : List ℚ) (a : ℚ), a ∈ x :: xs → a ≤ listMax (x :: xs) := by
  intro x xs
  induction xs generalizing x with
  | nil =>
    intro a ha
    rw [List.mem_singleton] at ha
    simp [listMax, ha]
  | cons y ys ih =>
    intro a ha
    rw [listMax]
    rcases List.mem_cons.mp ha with rfl | ha'
    · exact le_max_left _ _
    · exact le_trans (ih y a ha') (le_max_right _ _)

theorem listMin_perm {l₁ l₂ : List ℚ} (h : l₁.Perm l₂) : listMin l₁ = listMin l₂ := by
  cases l₁ with
  | nil =>
    cases l₂ with
    | nil => rfl
    | cons b bs => exact absurd h.length_eq (by simp)
  | cons a as =>
    cases l₂ with
    | nil => exact absurd h.length_eq (by simp)
    | cons b bs =>
      apply le_antisymm
      · exact listMin_le a as _ (h.mem_iff.mpr (listMin_mem b bs))
      · exact listMin_le b bs _ (h.mem_iff.mp (listMin_mem a as))

theorem listMax_perm {l₁ l₂ : List ℚ} (h : l₁.Perm l₂) : listMax l₁ = listMax l₂ := by
  cases l₁ with
  | nil =>
    cases l₂ with
    | nil => rfl
    | cons b bs => exact absurd h.length_eq (by simp)
  | cons a as =>
    cases l₂ with
    | nil => exact absurd h.length_eq (by simp)
    | cons b bs =>
      apply le_antisymm
      · exact le_listMax b bs _ (h.mem_iff.mp (listMax_mem a as))
      · exact le_listMax a as _ (h.mem_iff.mpr (listMax_mem b bs))

theorem rowFor_perm {l₁ l₂ : List RawSample} (h : l₁.Perm l₂) (day : Nat) :
    rowFor l₁ day = rowFor l₂ day := by
  have hb : (bucketOf l₁ day).Perm (bucketOf l₂ day) := h.filter _
  have e1 := hb.filterMap (·.temp_min)
  have e2 := hb.filterMap (·.temp_max)
  have e3 := hb.filterMap (·.windSpeed)
  have m1 := hb.map (fun s => (s.pop.getD 0) * 100)
  have m2 := hb.map (fun s => s.rain3h.getD 0)
  simp only [rowFor, DailyRow.mk.injEq]
  refine ⟨trivial, ?_, ?_, ?_, ?_, ?_⟩
  · simp only [perm_nil_iff e1, listMin_perm e1]
  · simp only [perm_nil_iff e2, listMax_perm e2]
  · simp only [perm_nil_iff m1, listMax_perm m1]
  · simp only [perm_nil_iff m2, m2.sum_eq]
  · simp only [perm_nil_iff e3, e3.sum_eq, e3.length_eq]

theorem dayKeys_perm {l₁ l₂ : List RawSample} (h : l₁.Perm l₂) : dayKeys l₁ = dayKeys l₂ := by
  have hd : ((l₁.filterMap sampleKey).dedup).Perm ((l₂.filterMap sampleKey).dedup) :=
    (h.filterMap _).dedup
  have hsorts :
      ((l₁.filterMap sampleKey).dedup.insertionSort (· ≤ ·)) =
        ((l₂.filterMap sampleKey).dedup.insertionSort (· ≤ ·)) :=
    List.eq_of_perm_of_sorted
      (((List.perm_insertionSort _ _).trans hd).trans (List.perm_insertionSort _ _).symm)
      (List.sorted_insertionSort _ _) (List.sorted_insertionSort _ _)
  rw [dayKeys, dayKeys, hsorts]

/-- Claim C9: the daily aggregator is insensitive to the order of its
input — aggregating any permutation of a forecast sample list yields an
identical daily row sequence. -/
theorem aggregate_perm {l₁ l₂ : List RawSample} (h : l₁.Perm l₂) :
    aggregate l₁ = aggregate l₂ := by
  rw [aggregate, aggregate, dayKeys_perm h]
  exact List.map_congr_left (fun d _ => rowFor_perm h d)

/-- Claim C9 witness: swapping two concrete samples leaves the
aggregator output unchanged. -/
theorem aggregate_perm_witness :
    aggregate [sampleT1, sampleT2] = aggregate [sampleT2, sampleT1] :=
  aggregate_perm (List.Perm.swap sampleT2 sampleT1 [])

theorem sorted_nodup_strict {l : List ℕ} (hs : List.Sorted (· ≤ ·) l) (hn : l.Nodup) :
    List.Sorted (· < ·) l := by
  induction l with
  | nil => simp
  | cons a xs ih =>
    rw [List.sorted_cons] at hs ⊢
    rcases hs with ⟨ha, hs'⟩
    rcases List.nodup_cons.mp hn with ⟨hna, hn'⟩
    refine ⟨fun b hb => lt_of_le_of_ne (ha b hb) ?_, ih hs' hn'⟩
    rintro rfl
    exact hna hb

theorem pairwise_take_drop {α : Type*} {R : α → α → Prop} :
    ∀ (l : List α) (n : Nat), l.Pairwise R → ∀ a ∈ l.take n, ∀ b ∈ l.drop n, R a b := by
  intro l
  induction l with
  | nil => intro n _ a ha; simp at ha
  | cons x xs ih =>
    intro n hp a ha b hb
    cases n with
    | zero => simp at ha
    | succ m =>
      rw [List.take_succ_cons] at ha
      rw [List.drop_succ_cons] at hb
      rcases List.mem_cons.mp ha with rfl | ha'
      · exact (List.pairwise_cons.mp hp).1 b (List.mem_of_mem_drop hb)
      · exact ih m (List.pairwise_cons.mp hp).2 a ha' b hb

theorem aggregate_map_date (samples : List RawSample) :
    (aggregate samples).map (·.date) = dayKeys samples := by
  rw [aggregate, List.map_map]
  have hcomp : ((fun r : DailyRow => r.date) ∘ rowFor samples) = id := rfl
  rw [hcomp, List.map_id]

theorem dayKeys_sorted_base (samples : List RawSample) :
    List.Sorted (· < ·) ((samples.filterMap sampleKey).dedup.insertionSort (· ≤ ·)) :=
  sorted_nodup_strict (List.sorted_insertionSort _ _)
    ((List.perm_insertionSort _ _).nodup_iff.mpr (List.nodup_dedup _))

theorem mem_sort_dedup_iff (samples : List RawSample) (d : ℕ) :
    d ∈ (samples.filterMap sampleKey).dedup.insertionSort (· ≤ ·) ↔
      ∃ s ∈ samples, sampleKey s = some d := by
  rw [(List.perm_insertionSort _ _).mem_iff, List.mem_dedup, List.mem_filterMap]

/-- Claim C3 (amended): for every forecast sample list, the aggregator
outputs at most 5 rows, strictly sorted ascending by date key; every
output date is the UTC date of some sample with a nonzero timestamp;
every such sample date not in the output is larger than all output
dates; and the number of rows is the minimum of 5 and the number of
distinct such dates.  (The claim's "samples that have a timestamp" has
to be narrowed to "nonzero timestamp": the loop's `if not ts: continue`
also skips a present timestamp equal to `0`.) -/
theorem aggregate_cap_sorted_earliest (samples : List RawSample) :
    (aggregate samples).length ≤ 5 ∧
    List.Sorted (· < ·) ((aggregate samples).map (·.date)) ∧
    (∀ d ∈ (aggregate samples).map (·.date), ∃ s ∈ samples, sampleKey s = some d) ∧
    (∀ d, (∃ s ∈ samples, sampleKey s = some d) →
        d ∉ (aggregate samples).map (·.date) →
        ∀ e ∈ (aggregate samples).map (·.date), e < d) ∧
    (aggregate samples).length = min 5 (samples.filterMap sampleKey).dedup.length := by
  have hmap := aggregate_map_date samples
  have hlen : (aggregate samples).length = (dayKeys samples).length := by
    rw [aggregate, List.length_map]
  refine ⟨?_, ?_, ?_, ?_, ?_⟩
  · rw [hlen, dayKeys]
    exact List.length_take_le _ _
  · rw [hmap]
    exact List.Pairwise.sublist (List.take_sublist _ _) (dayKeys_sorted_base samples)
  · rw [hmap]
    intro d hd
    exact (mem_sort_dedup_iff samples d).mp (List.mem_of_mem_take hd)
  · rw [hmap]
    intro d hsd hnot e he
    have hdL := (mem_sort_dedup_iff samples d).mpr hsd
    rw [← List.take_append_drop 5 ((samples.filterMap sampleKey).dedup.insertionSort (· ≤ ·)),
      List.mem_append] at hdL
    rcases hdL with hdt | hdd
    · exact absurd hdt hnot
    · exact pairwise_take_drop _ 5 (dayKeys_sorted_base samples) e he d hdd
  · rw [hlen, dayKeys, List.length_take, (List.perm_insertionSort _ _).length_eq]

/-- Claim C3 witness: seven samples on seven distinct days; the theorem
yields the row cap and that an omitted sample date exceeds an output
date. -/
theorem aggregate_cap_witness :
    (aggregate ((List.range 7).map
        (fun i => ⟨some (86400 * (20000 + i) + 3600), some 20, some 25, none, none, none⟩))).length
      ≤ 5 ∧ (20000 : ℕ) < 20006 := by
  refine ⟨(aggregate_cap_sorted_earliest _).1, ?_⟩
  have h4 := (aggregate_cap_sorted_earliest ((List.range 7).map
      (fun i => ⟨some (86400 * (20000 + i) + 3600), some 20, some 25, none, none, none⟩))).2.2.2.1
  refine h4 20006 ?_ (by decide) 20000 (by decide)
  exact ⟨⟨some (86400 * 20006 + 3600), some 20, some 25, none, none, none⟩, by decide, by decide⟩

/-- Claim C3 counterexample: a sample whose `dt` field is present but
equal to `0` "has a timestamp" in the claim's sense, yet the aggregator
outputs no row for it, because `if not ts: continue` treats the falsy
`0` like a missing timestamp. -/
theorem aggregate_zero_ts_cex :
    (⟨some 0, some 1, some 2, none, none, none⟩ : RawSample).dt = some 0 ∧
      aggregate [⟨some 0, some 1, some 2, none, none, none⟩] = [] := by
  constructor
  · rfl
  · rw [aggregate, dayKeys]
    simp [sampleKey]

theorem roundHalfEven_cases (q : ℚ) : roundHalfEven q = ⌊q⌋ ∨ roundHalfEven q = ⌊q⌋ + 1 := by
  rw [roundHalfEven]
  split
  · exact Or.inl rfl
  split
  · exact Or.inr rfl
  split
  · exact Or.inl rfl
  · exact Or.inr rfl

theorem floor_le_roundHalfEven (q : ℚ) : ⌊q⌋ ≤ roundHalfEven q := by
  rcases roundHalfEven_cases q with h | h <;> rw [h] <;> omega

theorem roundHalfEven_le_ceil (q : ℚ) : roundHalfEven q ≤ ⌈q⌉ := by
  rw [roundHalfEven]
  split
  · exact Int.floor_le_ceil q
  · rename_i h1
    push_neg at h1
    have hne : (⌊q⌋ : ℚ) ≠ q := by
      intro he
      rw [he, sub_self] at h1
      norm_num at h1
    have hlt : ⌊q⌋ < ⌈q⌉ :=
      Int.cast_lt.mp (lt_of_lt_of_le (lt_of_le_of_ne (Int.floor_le q) hne) (Int.le_ceil q))
    have h2 : ⌊q⌋ + 1 ≤ ⌈q⌉ := by omega
    split
    · exact h2
    split
    · exact Int.floor_le_ceil q
    · exact h2

theorem round1_nonneg {q : ℚ} (h : 0 ≤ q) : 0 ≤ round1 q := by
  rw [round1]
  apply div_nonneg _ (by norm_num)
  have h1 : (0:ℤ) ≤ ⌊q * 10⌋ := Int.floor_nonneg.mpr (by positivity)
  exact_mod_cast le_trans h1 (floor_le_roundHalfEven _)

theorem round1_le_int {q : ℚ} {n : ℤ} (h : q ≤ n) : round1 q ≤ n := by
  rw [round1]
  have h1 : roundHalfEven (q * 10) ≤ 10 * n := by
    refine le_trans (roundHalfEven_le_ceil _) (Int.ceil_le.mpr ?_)
    push_cast
    linarith
  rw [div_le_iff (by norm_num)]
  calc ((roundHalfEven (q * 10) : ℤ) : ℚ) ≤ ((10 * n : ℤ) : ℚ) := by exact_mod_cast h1
    _ = n * 10 := by push_cast; ring

theorem listMax_mem_of_ne_nil {l : List ℚ} (h : l ≠ []) : listMax l ∈ l := by
  cases l with
  | nil => exact absurd rfl h
  | cons x xs => exact listMax_mem x xs

/-- Claim C10 (amended): every daily row's `pop` is non-null (each
bucket receives a defaulted pop and rain value from every sample, so the
null branch for `pop` and the 0-for-empty branch for `rain_mm` are
unreachable); and provided every present provider `pop` lies in `[0, 1]`
and every present rain volume is non-negative, `pop` lies in `[0, 100]`
and `rain_mm` is non-negative.  (Without those range hypotheses the
claimed bounds fail — see the counterexample.) -/
theorem daily_pop_rain_invariant (samples : List RawSample)
    (hpop : ∀ s ∈ samples, ∀ p, s.pop = some p → 0 ≤ p ∧ p ≤ 1)
    (hrain : ∀ s ∈ samples, ∀ r, s.rain3h = some r → 0 ≤ r) :
    ∀ row ∈ aggregate samples,
      (∃ v, row.pop = some v ∧ 0 ≤ v ∧ v ≤ 100) ∧ 0 ≤ row.rain_mm := by
  intro row hrow
  rcases List.mem_map.mp hrow with ⟨d, hd, rfl⟩
  have hsd : ∃ s ∈ samples, sampleKey s = some d :=
    (mem_sort_dedup_iff samples d).mp (List.mem_of_mem_take hd)
  rcases hsd with ⟨s, hs, hkey⟩
  have hsb : s ∈ bucketOf samples d :=
    List.mem_filter.mpr ⟨hs, by simp [hkey]⟩
  have hbne : bucketOf samples d ≠ [] := List.ne_nil_of_mem hsb
  have hpne : (bucketOf samples d).map (fun s => (s.pop.getD 0) * 100) ≠ [] := by
    simpa using hbne
  have hrne : (bucketOf samples d).map (fun s => s.rain3h.getD 0) ≠ [] := by
    simpa using hbne
  have hmem_samples : ∀ t ∈ bucketOf samples d, t ∈ samples := by
    intro t ht
    exact (List.mem_filter.mp ht).1
  have hpop_bounds : ∀ x ∈ (bucketOf samples d).map (fun s => (s.pop.getD 0) * 100),
      0 ≤ x ∧ x ≤ 100 := by
    intro x hx
    rcases List.mem_map.mp hx with ⟨t, ht, rfl⟩
    rcases hp : t.pop with _ | p
    · simp [hp]
    · rcases hpop t (hmem_samples t ht) p hp with ⟨h0, h1⟩
      constructor
      · simp [hp]; positivity
      · simp [hp]; nlinarith
  have hrain_bounds : ∀ x ∈ (bucketOf samples d).map (fun s => s.rain3h.getD 0), 0 ≤ x := by
    intro x hx
    rcases List.mem_map.mp hx with ⟨t, ht, rfl⟩
    rcases hr : t.rain3h with _ | r
    · simp [hr]
    · simpa [hr] using hrain t (hmem_samples t ht) r hr
  constructor
  · refine ⟨round1 (listMax ((bucketOf samples d).map (fun s => (s.pop.getD 0) * 100))), ?_, ?_, ?_⟩
    · simp only [rowFor]
      rw [if_neg hpne]
    · apply round1_nonneg
      exact (hpop_bounds _ (listMax_mem_of_ne_nil hpne)).1
    · have := round1_le_int (n := 100) (by
        exact_mod_cast (hpop_bounds _ (listMax_mem_of_ne_nil hpne)).2)
      exact_mod_cast this
  · simp only [rowFor]
    rw [if_neg hrne]
    exact round1_nonneg (List.sum_nonneg hrain_bounds)

/-- Claim C10 counterexample: a sample whose provider `pop` is `2`
(outside the provider's documented `[0, 1]` range, which the code never
clamps) produces a daily row with `pop = 200`, outside `[0, 100]`; so
the claimed bound does not hold for every input. -/
theorem daily_pop_range_cex :
    (aggregate [⟨some 1728000000, none, none, some 2, none, none⟩]).map (·.pop)
      = [some 200] ∧ ¬((200 : ℚ) ≤ 100) := by
  constructor
  · rw [aggregate,
      show dayKeys [⟨some 1728000000, none, none, some 2, none, none⟩] = [20000] from by decide]
    simp only [List.map, rowFor]
    norm_num [bucketOf, List.filter, sampleKey, dateKey, listMax, round1, roundHalfEven]
  · norm_num

/-- Claim C10 witness: the invariant applied to a concrete in-range
sample list. -/
theorem daily_pop_rain_witness :
    (∃ v, (rowFor [sampleT1] 20000).pop = some v ∧ 0 ≤ v ∧ v ≤ 100) ∧
      0 ≤ (rowFor [sampleT1] 20000).rain_mm := by
  refine daily_pop_rain_invariant [sampleT1] ?_ ?_ _ ?_
  · intro s hs p hp
    rw [List.mem_singleton] at hs
    subst hs
    rw [show sampleT1.pop = some (1/10) from rfl] at hp
    injection hp with hp'
    rw [← hp']
    norm_num
  · intro s hs r hr
    rw [List.mem_singleton] at hs
    subst hs
    rw [show sampleT1.rain3h = some 0 from rfl] at hr
    injection hr with hr'
    rw [← hr']
  · rw [aggregate, show dayKeys [sampleT1] = [20000] from by decide]
    simp

/-- Python strings of the resolver, as ASCII character lists. -/
abbrev PyStr := List Char

/-- ASCII lower-casing of one character (`str.lower` restricted to the
ASCII repertoire the code's inputs use). -/
def lowerChar (c : Char) : Char :=
  if 'A' ≤ c ∧ c ≤ 'Z' then Char.ofNat (c.toNat + 32) else c

/-- `str.lower()`. -/
def lowerStr (s : PyStr) : PyStr := s.map lowerChar

/-- ASCII whitespace, as recognised by `str.strip()`. -/
def isSpaceChar (c : Char) : Bool :=
  c = ' ' || c = '\t' || c = '\n' || c = '\r'

/-- `str.strip()`. -/
def stripStr (s : PyStr) : PyStr :=
  ((s.dropWhile isSpaceChar).reverse.dropWhile isSpaceChar).reverse

/-- `s.split(",")[0]`: everything before the first comma (the whole
string when there is none). -/
def firstPart (s : PyStr) : PyStr := s.takeWhile (· ≠ ',')

/-- Bool test that `needle` starts `hay`. -/
def isPrefixB : PyStr → PyStr → Bool
  | [], _ => true
  | _ :: _, [] => false
  | a :: as, b :: bs => a = b && isPrefixB as bs

/-- Python's `needle in hay` substring test. -/
def containsSub (needle : PyStr) : PyStr → Bool
  | [] => needle.isEmpty
  | c :: rest => isPrefixB needle (c :: rest) || containsSub needle rest

/-- The candidate queries built by `_geocode_city` (lines 44-65) from
`base = city.strip()`, in order: the raw trimmed input; when the input
mentions "philippines" (case-insensitive), the part before the first
comma with `,PH` appended and then that part alone; when it has a comma
but no "philippines", the first part and then the first part with `,PH`;
and when it names no country (`,ph` and "philippines" both absent), the
first part with `,PH`. -/
def candidates (base : PyStr) : List PyStr :=
  let lowered := lowerStr base
  [base] ++
  (if containsSub ("philippines".toList) lowered then
      [stripStr (firstPart base) ++ (",PH".toList), stripStr (firstPart base)]
    else []) ++
  (if containsSub ([','] : PyStr) base && !containsSub ("philippines".toList) lowered then
      [stripStr (firstPart base), stripStr (firstPart base) ++ (",PH".toList)]
    else []) ++
  (if !containsSub (",ph".toList) lowered && !containsSub ("philippines".toList) lowered then
      [stripStr (firstPart base) ++ (",PH".toList)]
    else [])

/-- The de-duplication loop of `_geocode_city` (lines 67-74): drop
candidates whose stripped lower-cased form is empty or already seen,
keep the stripped original, preserving first-seen order. -/
def dedupGo (seen : List PyStr) : List PyStr → List PyStr
  | [] => []
  | q :: rest =>
    let qn := lowerStr (stripStr q)
    if qn = [] ∨ qn ∈ seen then dedupGo seen rest
    else stripStr q :: dedupGo (qn :: seen) rest

/-- The final candidate list tried against the provider. -/
def finalCandidates (city : PyStr) : List PyStr :=
  dedupGo [] (candidates (stripStr city))

/-- Claim C1: for the input "Bacolod City, Negros Occidental,
Philippines", the candidate list after case-insensitive de-duplication
(preserving first-seen order) begins with the raw trimmed string, then
"Bacolod City,PH", then "Bacolod City". -/
theorem candidates_bacolod :
    (finalCandidates ("Bacolod City, Negros Occidental, Philippines".toList)).take 3 =
      ["Bacolod City, Negros Occidental, Philippines".toList,
       "Bacolod City,PH".toList, "Bacolod City".toList] := by decide

/-- Outcome of one outbound geocoding query `SESSION.get(url, params)`
followed by `raise_for_status()` and `.json()`:
* `results` — HTTP success and a parsed JSON array of items, each
  carrying its `lat`/`lon` pair;
* `httpErr` — non-success status: `raise_for_status()` raised
  `requests.HTTPError`, carrying the response status, the response body
  when it parses as JSON (already rendered by `str(...)`), and the
  exception message `str(e)`;
* `transportErr` — any exception that is not a `requests.HTTPError`
  (connection errors, timeouts, JSON decode failures), which the
  candidate loop's `except requests.HTTPError` clause does not catch. -/
inductive GeoOutcome where
  | results (arr : List (ℚ × ℚ))
  | httpErr (status : Nat) (parsedBody : Option String) (msg : String)
  | transportErr (msg : String)
deriving DecidableEq, Repr

/-- The exceptions that can cross `weather_summary`'s `try` boundary.
`httpError` is `requests.HTTPError` (with its response's status, its
body when JSON-parseable, and `str(e)`); `transportError` is any other
`requests`/JSON failure; `runtimeError` is `RuntimeError` with its
message. -/
inductive PyErr where
  | httpError (status : Nat) (parsedBody : Option String) (msg : String)
  | transportError (msg : String)
  | runtimeError (msg : String)
deriving DecidableEq, Repr

deriving instance DecidableEq for Except

/-- The mutable context of a resolution: the Django cache's unexpired
`geocode:` entries, and a count of outbound geocoding calls made. -/
structure GeoState where
  cache : List (PyStr × (ℚ × ℚ))
  calls : Nat
deriving DecidableEq, Repr

/-- `cache.get(key)` over the association list of unexpired entries. -/
def cacheGet (c : List (PyStr × (ℚ × ℚ))) (k : PyStr) : Option (ℚ × ℚ) :=
  (c.find? (fun e => decide (e.1 = k))).map (·.2)

/-- Record one outbound provider call. -/
def bump (st : GeoState) : GeoState := { st with calls := st.calls + 1 }

/-- `if not city: city = "Bacolod,PH"`. -/
def defaultCity (c : PyStr) : PyStr := if c = [] then "Bacolod,PH".toList else c

/-- The cache key `f"geocode:{city.lower()}"` of the defaulted input. -/
def keyOf (c : PyStr) : PyStr := "geocode:".toList ++ lowerStr (defaultCity c)

/-- Bool discriminator for HTTP-status failures of a query. -/
def isHttpErr : GeoOutcome → Bool
  | .httpErr _ _ _ => true
  | _ => false

/-- The candidate loop of `_geocode_city` (lines 78-99): try each
candidate in order; an empty result array means advance; a non-empty one
means cache under `key` (TTL 24 h) and return the first item's
coordinates; a `requests.HTTPError` is recorded in `last_err` and the
loop advances; any other exception propagates immediately (the `except`
clause only names `requests.HTTPError`).  On exhaustion the code raises
`RuntimeError`, with an `(OWM)` message variant when some HTTP error was
recorded — the recorded error itself is not re-raised or chained. -/
def tryCandidates (p : PyStr → GeoOutcome) (key city : PyStr) :
    GeoState → List PyStr → Option PyErr → (Except PyErr (ℚ × ℚ)) × GeoState
  | st, [], last =>
    match last with
    | some _ => (.error (.runtimeError ("City not found (OWM): " ++ String.mk city)), st)
    | none => (.error (.runtimeError ("City not found: " ++ String.mk city)), st)
  | st, q :: rest, last =>
    match p q with
    | .results [] => tryCandidates p key city (bump st) rest last
    | .results (v :: _) => (.ok v, { cache := (key, v) :: st.cache, calls := st.calls + 1 })
    | .httpErr s b m => tryCandidates p key city (bump st) rest (some (.httpError s b m))
    | .transportErr m => (.error (.transportError m), bump st)

/-- `_geocode_city` (lines 24-99): default the empty input, check the
cache under the lower-cased key (a hit returns at once, before the
API-key check), then require the key and run the candidate loop. -/
def geocodeCity (p : PyStr → GeoOutcome) (apiKey : Bool) (st : GeoState) (cityIn : PyStr) :
    (Except PyErr (ℚ × ℚ)) × GeoState :=
  let city := defaultCity cityIn
  let key := keyOf cityIn
  match cacheGet st.cache key with
  | some v => (.ok v, st)
  | none =>
    if apiKey then tryCandidates p key city st (finalCandidates city) none
    else (.error (.runtimeError "Missing OWM_API_KEY in environment/.env"), st)

theorem tryCandidates_append_skip (p : PyStr → GeoOutcome) (key city : PyStr) :
    ∀ (pre : List PyStr) (st : GeoState) (last : Option PyErr) (rest : List PyStr),
      (∀ q ∈ pre, p q = .results [] ∨ isHttpErr (p q) = true) →
      ∃ st' last', tryCandidates p key city st (pre ++ rest) last =
        tryCandidates p key city st' rest last' := by
  intro pre
  induction pre with
  | nil => exact fun st last rest _ => ⟨st, last, rfl⟩
  | cons q qr ih =>
    intro st last rest hall
    have hq := hall q (List.mem_cons_self _ _)
    rw [List.cons_append]
    cases hpq : p q with
    | results arr =>
      cases arr with
      | nil =>
        simp only [tryCandidates, hpq]
        exact ih _ _ _ (fun x hx => hall x (List.mem_cons_of_mem _ hx))
      | cons v vs =>
        rw [hpq] at hq
        simp [isHttpErr] at hq
    | httpErr s b m =>
      simp only [tryCandidates, hpq]
      exact ih _ _ _ (fun x hx => hall x (List.mem_cons_of_mem _ hx))
    | transportErr m =>
      rw [hpq] at hq
      simp [isHttpErr] at hq

theorem tryCandidates_exhaust (p : PyStr → GeoOutcome) (key city : PyStr) :
    ∀ (cs : List PyStr) (st : GeoState) (last : Option PyErr),
      (∀ q ∈ cs, p q = .results [] ∨ isHttpErr (p q) = true) →
      (tryCandidates p key city st cs last).1 =
        (if cs.any (fun q => isHttpErr (p q)) || last.isSome then
          Except.error (.runtimeError ("City not found (OWM): " ++ String.mk city))
        else Except.error (.runtimeError ("City not found: " ++ String.mk city))) := by
  intro cs
  induction cs with
  | nil =>
    intro st last _
    cases last with
    | none => simp [tryCandidates]
    | some e => simp [tryCandidates]
  | cons q qr ih =>
    intro st last hall
    have hq := hall q (List.mem_cons_self _ _)
    cases hpq : p q with
    | results arr =>
      cases arr with
      | nil =>
        simp only [tryCandidates, hpq]
        rw [ih _ _ (fun x hx => hall x (List.mem_cons_of_mem _ hx))]
        simp [List.any_cons, hpq, isHttpErr]
      | cons v vs =>
        rw [hpq] at hq
        simp [isHttpErr] at hq
    | httpErr s b m =>
      simp only [tryCandidates, hpq]
      rw [ih _ _ (fun x hx => hall x (List.mem_cons_of_mem _ hx))]
      simp [List.any_cons, hpq, isHttpErr]
    | transportErr m =>
      rw [hpq] at hq
      simp [isHttpErr] at hq

theorem tryCandidates_ok_cache (p : PyStr → GeoOutcome) (key city : PyStr) :
    ∀ (cs : List PyStr) (st : GeoState) (last : Option PyErr) (v : ℚ × ℚ) (st' : GeoState),
      tryCandidates p key city st cs last = (.ok v, st') →
      cacheGet st'.cache key = some v := by
  intro cs
  induction cs with
  | nil =>
    intro st last v st' h
    cases last <;> simp [tryCandidates] at h
  | cons q qr ih =>
    intro st last v st' h
    cases hpq : p q with
    | results arr =>
      cases arr with
      | nil =>
        simp only [tryCandidates, hpq] at h
        exact ih _ _ _ _ h
      | cons w ws =>
        simp only [tryCandidates, hpq, Prod.mk.injEq] at h
        rcases h with ⟨h1, h2⟩
        cases h1
        rw [← h2]
        simp [cacheGet, List.find?]
    | httpErr s b m =>
      simp only [tryCandidates, hpq] at h
      exact ih _ _ _ _ h
    | transportErr m =>
      simp only [tryCandidates, hpq, Prod.mk.injEq] at h
      exact absurd h.1 (by simp)

theorem geocodeCity_miss (p : PyStr → GeoOutcome) (st : GeoState) (c : PyStr)
    (h : cacheGet st.cache (keyOf c) = none) :
    geocodeCity p true st c =
      tryCandidates p (keyOf c) (defaultCity c) st (finalCandidates (defaultCity c)) none := by
  simp only [geocodeCity, h, if_true]

theorem geocodeCity_ok_cache (p : PyStr → GeoOutcome) (k : Bool) (st : GeoState) (c : PyStr)
    (v : ℚ × ℚ) (st' : GeoState) (h : geocodeCity p k st c = (.ok v, st')) :
    cacheGet st'.cache (keyOf c) = some v := by
  simp only [geocodeCity] at h
  cases hc : cacheGet st.cache (keyOf c) with
  | some w =>
    simp only [hc, Prod.mk.injEq] at h
    rcases h with ⟨h1, h2⟩
    cases h1
    rw [← h2]
    exact hc
  | none =>
    simp only [hc] at h
    cases k with
    | false => simp at h
    | true => exact tryCandidates_ok_cache p _ _ _ _ _ _ _ h

/-- Claim C4: with a cold cache, if earlier candidates' geocoding
queries return zero results the resolver advances without raising and
returns the coordinates of the first candidate yielding at least one
result; and if every candidate query returns zero results it fails with
the plain not-found `RuntimeError`. -/
theorem resolve_fallback_exhaustion (p : PyStr → GeoOutcome) (st : GeoState) (c : PyStr)
    (hmiss : cacheGet st.cache (keyOf c) = none) :
    ((∀ q ∈ finalCandidates (defaultCity c), p q = .results []) →
      (geocodeCity p true st c).1 =
        .error (.runtimeError ("City not found: " ++ String.mk (defaultCity c)))) ∧
    (∀ pre q post v arr, finalCandidates (defaultCity c) = pre ++ q :: post →
      (∀ x ∈ pre, p x = .results []) → p q = .results (v :: arr) →
      (geocodeCity p true st c).1 = .ok v) := by
  constructor
  · intro hall
    rw [geocodeCity_miss p st c hmiss,
      tryCandidates_exhaust p _ _ _ st none (fun q hq => Or.inl (hall q hq))]
    have hany : (finalCandidates (defaultCity c)).any (fun q => isHttpErr (p q)) = false := by
      rw [List.any_eq_false]
      intro x hx
      rw [hall x hx]
      simp [isHttpErr]
    rw [hany]
    simp
  · intro pre q post v arr hsplit hpre hq
    rw [geocodeCity_miss p st c hmiss, hsplit]
    rcases tryCandidates_append_skip p (keyOf c) (defaultCity c) pre st none (q :: post)
        (fun x hx => Or.inl (hpre x hx)) with ⟨st', last', heq⟩
    rw [heq]
    simp only [tryCandidates, hq]

/-- A provider for which every query returns an empty result array. -/
def provEmptyAll : PyStr → GeoOutcome := fun _ => .results []

/-- A provider with no result for the raw candidate "Manila" but a
result for the fallback candidate "Manila,PH". -/
def provManilaSecond : PyStr → GeoOutcome := fun q =>
  if q = "Manila,PH".toList then .results [(14, 121)] else .results []

/-- Claim C4 witness: the exhaustion branch on an all-empty provider and
the fallback branch on a provider answering only the second candidate. -/
theorem resolve_fallback_witness :
    (geocodeCity provEmptyAll true ⟨[], 0⟩ ("Manila".toList)).1 =
      .error (.runtimeError ("City not found: " ++ String.mk ("Manila".toList))) ∧
    (geocodeCity provManilaSecond true ⟨[], 0⟩ ("Manila".toList)).1 = .ok (14, 121) := by
  constructor
  · exact (resolve_fallback_exhaustion provEmptyAll ⟨[], 0⟩ _ (by decide)).1 (by decide)
  · exact (resolve_fallback_exhaustion provManilaSecond ⟨[], 0⟩ _ (by decide)).2
      ["Manila".toList] ("Manila,PH".toList) [] (14, 121) [] (by decide) (by decide) (by decide)

/-- A provider that times out on the raw candidate "Manila" although the
fallback candidate "Manila,PH" would return coordinates. -/
def provManilaTimeout : PyStr → GeoOutcome := fun q =>
  if q = "Manila".toList then .transportErr "timeout" else .results [(14, 121)]

/-- Claim C5 counterexample: a transport-level failure on the first
candidate is NOT non-fatal — the `except requests.HTTPError` clause does
not catch it, so resolution aborts with the transport error even though
the next candidate would have yielded a result, contradicting the
claimed record-and-advance behaviour. -/
theorem resolve_transport_cex :
    provManilaTimeout ("Manila,PH".toList) = .results [(14, 121)] ∧
    (geocodeCity provManilaTimeout true ⟨[], 0⟩ ("Manila".toList)).1 =
      .error (.transportError "timeout") := by decide

/-- Claim C5 (amended): an HTTP-status failure (`raise_for_status`) on a
candidate's geocoding call is the non-fatal case — it is recorded and
the resolver advances to the next candidate, and when every candidate is
exhausted after some recorded HTTP error the failure is the
`(OWM)`-variant not-found `RuntimeError` (the recorded error is not
attached as a cause); by contrast a transport-level failure (timeout,
DNS, connection reset) is not caught in the loop: it propagates at once,
aborting resolution without trying the remaining candidates. -/
theorem resolve_transport_fatal_http_nonfatal (p : PyStr → GeoOutcome) (st : GeoState)
    (c : PyStr) (hmiss : cacheGet st.cache (keyOf c) = none) :
    (∀ pre q post m, finalCandidates (defaultCity c) = pre ++ q :: post →
      (∀ x ∈ pre, p x = .results [] ∨ isHttpErr (p x) = true) →
      p q = .transportErr m →
      (geocodeCity p true st c).1 = .error (.transportError m)) ∧
    (∀ pre q post v arr, finalCandidates (defaultCity c) = pre ++ q :: post →
      (∀ x ∈ pre, p x = .results [] ∨ isHttpErr (p x) = true) →
      p q = .results (v :: arr) →
      (geocodeCity p true st c).1 = .ok v) ∧
    ((∀ q ∈ finalCandidates (defaultCity c), p q = .results [] ∨ isHttpErr (p q) = true) →
      (∃ q ∈ finalCandidates (defaultCity c), isHttpErr (p q) = true) →
      (geocodeCity p true st c).1 =
        .error (.runtimeError ("City not found (OWM): " ++ String.mk (defaultCity c)))) := by
  refine ⟨?_, ?_, ?_⟩
  · intro pre q post m hsplit hpre hq
    rw [geocodeCity_miss p st c hmiss, hsplit]
    rcases tryCandidates_append_skip p (keyOf c) (defaultCity c) pre st none (q :: post)
        hpre with ⟨st', last', heq⟩
    rw [heq]
    simp only [tryCandidates, hq]
  · intro pre q post v arr hsplit hpre hq
    rw [geocodeCity_miss p st c hmiss, hsplit]
    rcases tryCandidates_append_skip p (keyOf c) (defaultCity c) pre st none (q :: post)
        hpre with ⟨st', last', heq⟩
    rw [heq]
    simp only [tryCandidates, hq]
  · intro hall hex
    rw [geocodeCity_miss p st c hmiss, tryCandidates_exhaust p _ _ _ st none hall]
    have hany : (finalCandidates (defaultCity c)).any (fun q => isHttpErr (p q)) = true := by
      rw [List.any_eq_true]
      rcases hex with ⟨q, hq, hh⟩
      exact ⟨q, hq, hh⟩
    rw [hany]
    simp

/-- A provider answering the first candidate with an HTTP 500 failure
and any other candidate with coordinates. -/
def provHttpThenOk : PyStr → GeoOutcome := fun q =>
  if q = "Manila".toList then .httpErr 500 none "boom" else .results [(14, 121)]

/-- A provider answering every candidate with an HTTP 404 failure. -/
def provHttpAll : PyStr → GeoOutcome := fun _ => .httpErr 404 none "nf"

/-- A provider with no result for the first candidate and a DNS failure
for the second. -/
def provTimeoutSecond : PyStr → GeoOutcome := fun q =>
  if q = "Manila,PH".toList then .transportErr "dns" else .results []

/-- Claim C5 witness: the three branches of the amended statement at
concrete providers — transport failure after an empty first candidate
propagates; an HTTP failure on the first candidate is skipped and the
second candidate's coordinates are returned; all-HTTP-failure exhaustion
yields the `(OWM)` not-found variant. -/
theorem resolve_transport_witness :
    (geocodeCity provTimeoutSecond true ⟨[], 0⟩ ("Manila".toList)).1 =
      .error (.transportError "dns") ∧
    (geocodeCity provHttpThenOk true ⟨[], 0⟩ ("Manila".toList)).1 = .ok (14, 121) ∧
    (geocodeCity provHttpAll true ⟨[], 0⟩ ("Manila".toList)).1 =
      .error (.runtimeError ("City not found (OWM): " ++ String.mk ("Manila".toList))) := by
  refine ⟨?_, ?_, ?_⟩
  · exact (resolve_transport_fatal_http_nonfatal provTimeoutSecond ⟨[], 0⟩ _ (by decide)).1
      ["Manila".toList] ("Manila,PH".toList) [] "dns" (by decide) (by decide) (by decide)
  · exact (resolve_transport_fatal_http_nonfatal provHttpThenOk ⟨[], 0⟩ _ (by decide)).2.1
      ["Manila".toList] ("Manila,PH".toList) [] (14, 121) [] (by decide) (by decide) (by decide)
  · exact (resolve_transport_fatal_http_nonfatal provHttpAll ⟨[], 0⟩ _ (by decide)).2.2
      (by decide) (by decide)

/-- Claim C8 (amended): an unexpired cache entry under the key derived
from the lower-cased (defaulted) input makes `_geocode_city` return the
cached pair at once, with the state unchanged — no candidate generation
becomes observable, no outbound call is counted, and the return happens
before `_require_key`, so it succeeds even with the credential absent;
consequently, after a successful first resolve, a second resolve whose
input yields the same cache key returns the same coordinates with the
state again unchanged (zero further outbound calls).  The claim's
stronger count — at most one outbound geocoding call across both
resolves — fails, since the first resolve issues one call per candidate
tried (see the counterexample). -/
theorem resolve_cache_shortcircuit (p : PyStr → GeoOutcome) (k : Bool) (st st' : GeoState)
    (c c₂ : PyStr) (v : ℚ × ℚ) (hsame : keyOf c₂ = keyOf c) :
    (cacheGet st.cache (keyOf c) = some v → geocodeCity p k st c = (.ok v, st)) ∧
    (geocodeCity p true st c = (.ok v, st') → geocodeCity p k st' c₂ = (.ok v, st')) := by
  constructor
  · intro hc
    simp only [geocodeCity, hc]
  · intro h
    have hcache := geocodeCity_ok_cache p true st c v st' h
    simp only [geocodeCity, hsame, hcache]

/-- Claim C8 counterexample: for the input "Manila" the first candidate
returns no result and the second succeeds, so the first resolve already
issues two outbound geocoding calls; the second resolve of the same
input is served from cache (the counter stays at 2).  Two case-equal
resolves inside the TTL therefore issue two outbound calls, not at most
one. -/
theorem resolve_two_calls_cex :
    (geocodeCity provManilaSecond true ⟨[], 0⟩ ("Manila".toList)).1 = .ok (14, 121) ∧
    (geocodeCity provManilaSecond true ⟨[], 0⟩ ("Manila".toList)).2.calls = 2 ∧
    (geocodeCity provManilaSecond true
        (geocodeCity provManilaSecond true ⟨[], 0⟩ ("Manila".toList)).2
        ("Manila".toList)).2.calls = 2 := by decide

/-- Claim C8 witness: the short-circuit branch on a warm cache with the
credential absent, and the second-resolve branch after a concrete
successful first resolve under different casing. -/
theorem resolve_cache_witness :
    geocodeCity provEmptyAll false ⟨[("geocode:manila".toList, (14, 121))], 5⟩
        ("Manila".toList) =
      (.ok (14, 121), ⟨[("geocode:manila".toList, (14, 121))], 5⟩) ∧
    geocodeCity provManilaSecond true ⟨[("geocode:manila".toList, (14, 121))], 2⟩
        ("MANILA".toList) =
      (.ok (14, 121), ⟨[("geocode:manila".toList, (14, 121))], 2⟩) := by
  constructor
  · exact (resolve_cache_shortcircuit provEmptyAll false
      ⟨[("geocode:manila".toList, (14, 121))], 5⟩ ⟨[], 0⟩ ("Manila".toList)
      ("Manila".toList) (14, 121) rfl).1 (by decide)
  · exact (resolve_cache_shortcircuit provManilaSecond true ⟨[], 0⟩
      ⟨[("geocode:manila".toList, (14, 121))], 2⟩ ("Manila".toList)
      ("MANILA".toList) (14, 121) (by decide)).2 (by decide)

/-- The `main` object of the current-conditions payload, restricted to
the keys the view reads. -/
structure MainObj where
  temp : Option ℚ
  humidity : Option ℚ
deriving DecidableEq, Repr

/-- The `wind` object of the current-conditions payload. -/
structure WindObj where
  speed : Option ℚ
deriving DecidableEq, Repr

/-- One entry of the `weather` condition list. -/
structure WeatherEntry where
  description : Option String
deriving DecidableEq, Repr

/-- The `sys` object of the current-conditions payload, restricted to
the keys the view reads; a dict with neither key models the empty (and
hence falsy) dict. -/
structure SysObj where
  sunrise : Option Nat
  sunset : Option Nat
deriving DecidableEq, Repr

/-- The current-conditions payload `wx`, flattened to the keys read in
lines 154-167; `none` is an absent (or JSON-null) key. -/
structure WxPayload where
  main : Option MainObj
  wind : Option WindObj
  sys : Option SysObj
  weather : Option (List WeatherEntry)
deriving DecidableEq, Repr

/-- The `current` object of the response.  `sunrise`/`sunset` hold the
epoch seconds whose ISO-8601 UTC rendering the code emits; the rendering
is injective on the representable range, so the instant stands for the
string. -/
structure CurrentOut where
  temp_c : Option ℚ
  humidity : Option ℚ
  wind_speed : Option ℚ
  sunrise : Option Nat
  sunset : Option Nat
  description : Option String
deriving DecidableEq, Repr

/-- The `current` dict built in `weather_summary` lines 154-167:
`wx.get("main", {}).get("temp")` and friends; sunrise/sunset are emitted
only when `wx.get("sys")` is truthy (a missing or empty `sys` gives
`None`), and a truthy `sys` defaults a missing key to epoch `0`; the
description is the first condition entry's, with `[{}]` substituted for
a falsy `weather` list. -/
def buildCurrent (wx : WxPayload) : CurrentOut :=
  { temp_c := wx.main.bind (·.temp)
    humidity := wx.main.bind (·.humidity)
    wind_speed := wx.wind.bind (·.speed)
    sunrise :=
      match wx.sys with
      | none => none
      | some s => if s.sunrise.isNone && s.sunset.isNone then none else some (s.sunrise.getD 0)
    sunset :=
      match wx.sys with
      | none => none
      | some s => if s.sunrise.isNone && s.sunset.isNone then none else some (s.sunset.getD 0)
    description :=
      match wx.weather with
      | none => none
      | some [] => none
      | some (e :: _) => e.description }

/-- The 5-day/3-hour forecast payload `fc`, flattened to the parts the
view reads: `fc.get("list")` and `fc.get("city", {}).get("name")`. -/
structure ForecastPayload where
  list : Option (List RawSample)
  cityName : Option PyStr
deriving DecidableEq, Repr

/-- The response payload of the success path (lines 208-215). -/
structure SummaryPayload where
  city : PyStr
  lat : ℚ
  lon : ℚ
  current : CurrentOut
  daily : List DailyRow
deriving DecidableEq, Repr

/-- The view's collaborators: the credential flag, the geocoding
provider, and the two weather fetchers.  `fetchCurrent`/`fetchForecast`
abstract `_current_weather`/`_forecast_5d3h` — read-through caches whose
outcome is a payload or a raised `PyErr` (HTTPError from
`raise_for_status`, transport failure, or the missing-credential
`RuntimeError`). -/
structure Env where
  apiKey : Bool
  geoProvider : PyStr → GeoOutcome
  fetchCurrent : ℚ × ℚ → Except PyErr WxPayload
  fetchForecast : ℚ × ℚ → Except PyErr ForecastPayload

/-- `request.GET.get("city") or "Bacolod,PH"` (line 147). -/
def viewCity (cityParam : Option PyStr) : PyStr :=
  match cityParam with
  | none => "Bacolod,PH".toList
  | some c => if c = [] then "Bacolod,PH".toList else c

/-- The body of `weather_summary`'s `try` block (lines 146-215):
resolve, fetch current and forecast, build the `current` object and the
daily rows, and shape the payload with the provider-reported city name
(falling back to the requested text when falsy). -/
def pipeline (env : Env) (st : GeoState) (cityParam : Option PyStr) :
    (Except PyErr SummaryPayload) × GeoState :=
  let city := viewCity cityParam
  match geocodeCity env.geoProvider env.apiKey st city with
  | (.error e, st') => (.error e, st')
  | (.ok (lat, lon), st') =>
    match env.fetchCurrent (lat, lon) with
    | .error e => (.error e, st')
    | .ok wx =>
      match env.fetchForecast (lat, lon) with
      | .error e => (.error e, st')
      | .ok fc =>
        (.ok { city :=
                 match fc.cityName with
                 | none => city
                 | some n => if n = [] then city else n
               lat := lat
               lon := lon
               current := buildCurrent wx
               daily := aggregate (fc.list.getD []) }, st')

/-- A JSON response: the success payload, or `{"error": message}` with
a status code. -/
inductive Response where
  | ok (payload : SummaryPayload)
  | err (status : Nat) (message : String)
deriving DecidableEq, Repr

/-- `weather_summary` (lines 132-222): the `try` body with its two
`except` clauses — `requests.HTTPError` is answered with the provider's
status and parsed body when `e.response.json()` succeeds, else `502`
with `str(e)`; every other exception is answered with `500` and
`str(e)`. -/
def weatherSummary (env : Env) (st : GeoState) (cityParam : Option PyStr) :
    Response × GeoState :=
  match pipeline env st cityParam with
  | (.ok payload, st') => (.ok payload, st')
  | (.error (.httpError status parsedBody msg), st') =>
    match parsedBody with
    | some body => (.err status body, st')
    | none => (.err 502 msg, st')
  | (.error (.transportError msg), st') => (.err 500 msg, st')
  | (.error (.runtimeError msg), st') => (.err 500 msg, st')

/-- The status claim C6 assigns to each failure kind: the provider's own
status when the body parses, 502 for unparseable upstream failures, 500
for everything else. -/
def claimStatus : PyErr → Nat
  | .httpError s (some _) _ => s
  | .httpError _ none _ => 502
  | .transportError _ => 500
  | .runtimeError _ => 500

/-- The error text claim C6 assigns to each failure kind. -/
def claimMessage : PyErr → String
  | .httpError _ (some b) _ => b
  | .httpError _ none m => m
  | .transportError m => m
  | .runtimeError m => m

/-- Claim C6: every failure inside the summary assembly is converted to
the single-field error response and never propagates: for every
environment, state and query, the response is the pipeline's payload on
success, and otherwise `{"error": message}` with exactly the status and
text of the claim's mapping — the provider's status and parsed body for
a parseable upstream HTTP failure, 502 and the exception text for an
unparseable one, and 500 for every other failure (not-found during
resolution and the missing credential included). -/
theorem weather_summary_error_mapping (env : Env) (st : GeoState) (cityParam : Option PyStr) :
    (∃ p, (pipeline env st cityParam).1 = .ok p ∧
      (weatherSummary env st cityParam).1 = .ok p) ∨
    (∃ e, (pipeline env st cityParam).1 = .error e ∧
      (weatherSummary env st cityParam).1 = .err (claimStatus e) (claimMessage e)) := by
  rcases hp : pipeline env st cityParam with ⟨r, st'⟩
  cases r with
  | ok p =>
    left
    refine ⟨p, by simp [hp], ?_⟩
    rw [weatherSummary, hp]
  | error e =>
    right
    refine ⟨e, by simp [hp], ?_⟩
    rw [weatherSummary, hp]
    cases e with
    | httpError s b m =>
      cases b with
      | some body => rfl
      | none => rfl
    | transportError m => rfl
    | runtimeError m => rfl

/-- Claim C7 counterexample: a current-conditions payload whose `sys`
object is present (it has a sunset) but omits `sunrise`.  The source
payload omits the sunrise field, yet the output's sunrise is not null:
`wx.get("sys", {}).get("sunrise", 0)` defaults the missing key to `0`
and the truthy-`sys` ternary formats it, emitting the epoch-0 instant. -/
theorem current_sunrise_cex :
    (⟨none, some 1000⟩ : SysObj).sunrise = none ∧
    (buildCurrent ⟨none, none, some ⟨none, some 1000⟩, none⟩).sunrise = some 0 := by decide

/-- Claim C7 (amended): missing fields never fail the request.  A
timestamped forecast sample with no pop, rain, temperature or wind
fields yields a row with pop 0 and rain 0 (the absent pop/rain
contribute 0 to the accumulators) and null temperatures and wind.  In
the current snapshot, temperature, humidity, wind speed and description
are independently null when their source object or entry omits them,
and sunrise/sunset are null when the whole `sys` object is absent or
empty; but when `sys` is present and non-empty with sunrise (resp.
sunset) omitted, the output carries the epoch-0 instant instead of
null. -/
theorem missing_fields_tolerance :
    (aggregate [⟨some 1728000000, none, none, none, none, none⟩] =
      [⟨20000, none, none, some 0, 0, none⟩]) ∧
    (∀ wx : WxPayload, wx.main = none →
      (buildCurrent wx).temp_c = none ∧ (buildCurrent wx).humidity = none) ∧
    (∀ wx : WxPayload, wx.wind = none → (buildCurrent wx).wind_speed = none) ∧
    (∀ wx : WxPayload, wx.weather = none ∨ wx.weather = some [] →
      (buildCurrent wx).description = none) ∧
    (∀ wx : WxPayload, ∀ es : List WeatherEntry, ∀ e : WeatherEntry,
      wx.weather = some (e :: es) → e.description = none →
      (buildCurrent wx).description = none) ∧
    (∀ wx : WxPayload, wx.sys = none ∨ wx.sys = some ⟨none, none⟩ →
      (buildCurrent wx).sunrise = none ∧ (buildCurrent wx).sunset = none) ∧
    (∀ wx : WxPayload, ∀ s : SysObj, wx.sys = some s →
      (s.sunrise = none → s.sunset ≠ none → (buildCurrent wx).sunrise = some 0) ∧
      (s.sunset = none → s.sunrise ≠ none → (buildCurrent wx).sunset = some 0)) := by
  refine ⟨?_, ?_, ?_, ?_, ?_, ?_, ?_⟩
  · rw [aggregate,
      show dayKeys [⟨some 1728000000, none, none, none, none, none⟩] = [20000] from by decide]
    simp only [List.map, rowFor]
    norm_num [bucketOf, List.filter, sampleKey, dateKey, listMax, round1, roundHalfEven]
  · intro wx h
    simp [buildCurrent, h]
  · intro wx h
    simp [buildCurrent, h]
  · intro wx h
    rcases h with h | h <;> simp [buildCurrent, h]
  · intro wx es e h hd
    simp [buildCurrent, h, hd]
  · intro wx h
    rcases h with h | h <;> simp [buildCurrent, h]
  · intro wx s h
    constructor
    · intro h1 h2
      simp [buildCurrent, h, h1, Option.isNone_iff_eq_none, h2]
    · intro h1 h2
      simp [buildCurrent, h, h1, Option.isNone_iff_eq_none, h2]

/-- Claim C7 witness: the amended statement applied at concrete
payloads — the all-absent forecast sample, a payload missing every
object, and a `sys` with only a sunset. -/
theorem missing_fields_witness :
    (aggregate [⟨some 1728000000, none, none, none, none, none⟩] =
      [⟨20000, none, none, some 0, 0, none⟩]) ∧
    (buildCurrent ⟨none, none, none, none⟩).temp_c = none ∧
    (buildCurrent ⟨none, none, none, none⟩).wind_speed = none ∧
    (buildCurrent ⟨none, none, none, none⟩).description = none ∧
    (buildCurrent ⟨none, none, none, none⟩).sunrise = none ∧
    (buildCurrent ⟨none, none, some ⟨none, some 1000⟩, none⟩).sunrise = some 0 :=
  ⟨missing_fields_tolerance.1,
   (missing_fields_tolerance.2.1 ⟨none, none, none, none⟩ rfl).1,
   missing_fields_tolerance.2.2.1 ⟨none, none, none, none⟩ rfl,
   missing_fields_tolerance.2.2.2.1 ⟨none, none, none, none⟩ (Or.inl rfl),
   (missing_fields_tolerance.2.2.2.2.2.1 ⟨none, none, none, none⟩ (Or.inl rfl)).1,
   (missing_fields_tolerance.2.2.2.2.2.2 ⟨none, none, some ⟨none, some 1000⟩, none⟩
      ⟨none, some 1000⟩ rfl).1 rfl (by simp)⟩
